import Mathlib

/-!
Verification development for the OralVis Healthcare annotation-and-report
pipeline.  The definitions below are a shallow embedding of:

* the client annotation page (fabric.js editor: `stripImagesFromJSON`,
  `addAnnotations`, tool selection, undo, per-image composite in `saveAll`),
* the server routes in `server/routes/submissions.js`
  (`/upload`, `/:id/annotate`, `/:id/generate-report`),
* the `Submission` mongoose schema (`server/models/Submission.js`).

JavaScript strings are Lean `String`s, JS numbers used as indices are `Int`
(the routes only ever compare and index with them), nullable values are
`Option`, and fallible route handlers return explicit outcome structures
carrying the state after the call, the files written, and the error
response (if any).
-/

namespace OralVis

/-! ## JS string helpers (regex tests used by the server routes) -/

/-- Split a list of characters on a separator character, mirroring the
effect of splitting a JS string on a single-character separator. -/
def splitOnChar : List Char → Char → List (List Char)
  | [], _ => [[]]
  | c :: cs, sep =>
    let rest := splitOnChar cs sep
    if c == sep then [] :: rest
    else
      match rest with
      | r :: rs => (c :: r) :: rs
      | [] => [[c]]

/-- `listIsPre p s` : `p` is an initial segment of `s`. -/
def listIsPre : List Char → List Char → Bool
  | [], _ => true
  | _ :: _, [] => false
  | a :: as, b :: bs => a == b && listIsPre as bs

/-- `listHasSub p s` : `p` occurs as a contiguous substring of `s`. -/
def listHasSub (p : List Char) : List Char → Bool
  | [] => listIsPre p []
  | c :: cs => listIsPre p (c :: cs) || listHasSub p cs

/-- The multer file filter's regex `/jpeg|jpg|png/.test(s)`: an
(unanchored) substring search for any of the three alternatives. -/
def jsTestAllowed (s : String) : Bool :=
  listHasSub "jpeg".toList s.toList ||
  listHasSub "jpg".toList s.toList ||
  listHasSub "png".toList s.toList

/-- Characters allowed by `[^\s@]` in the upload route's email regex. -/
def emailCharOk (c : Char) : Bool := !c.isWhitespace && c != '@'

/-- The domain part of the email regex, `[^\s@]+\.[^\s@]+`: some dot
occurs at an internal position (nonempty on both sides). -/
def internalDot (cs : List Char) : Bool :=
  (List.range cs.length).any fun i =>
    cs.getD i 'x' == '.' && decide (0 < i) && decide (i + 1 < cs.length)

/-- The upload route's email check `/^[^\s@]+@[^\s@]+\.[^\s@]+$/.test(email)`:
exactly one `@`, nonempty whitespace-free local part, and a domain with an
internal dot. -/
def emailOk (s : String) : Bool :=
  match splitOnChar s.toList '@' with
  | [lp, dom] =>
    !lp.isEmpty && lp.all emailCharOk && !dom.isEmpty && dom.all emailCharOk &&
      internalDot dom
  | _ => false

/-- The characters stripped from the mobile number before the digits test:
`mobileNumber.replace(/[\s\-\+\(\)]/g, "")`. -/
def mobileStripped (s : String) : List Char :=
  s.toList.filter fun c =>
    !(c.isWhitespace || c == '-' || c == '+' || c == '(' || c == ')')

/-- The upload route's mobile check `/^[0-9]{10,15}$/` on the stripped
number. -/
def mobileOk (s : String) : Bool :=
  let cs := mobileStripped s
  cs.all Char.isDigit && decide (10 ≤ cs.length) && decide (cs.length ≤ 15)

/-- JS falsiness of an optional request string: absent (`undefined`/`null`)
or the empty string. -/
def jsFalsyStr (o : Option String) : Bool :=
  match o with
  | none => true
  | some s => s.isEmpty

/-! ## Annotation document model

`canvas.toJSON()` produces an object with an `objects` array (one entry per
fabric object, each carrying a `type` tag plus its serialized properties)
and further top-level fields (background, version, ...).  We model one
serialized fabric object as `AnnObj`, the parsed JSON document as `JDoc`,
and the value handed to `stripImagesFromJSON` (which may also be a raw
string or a falsy value) as `Blob`. -/

/-- One serialized fabric object: its `type` tag (`"image"`, `"path"`,
`"rect"`, `"circle"`, `"group"`, ...), its stroke color and width, and the
remaining serialized properties as an opaque key/value list. -/
structure AnnObj where
  type : String
  stroke : String
  strokeWidth : Nat
  rest : List (String × String)
deriving Repr, DecidableEq

/-- A parsed JSON document as seen by `stripImagesFromJSON`:
`objects = none` models a parsed value without a (truthy) `objects` field,
and `rest` holds the further top-level fields, preserved by the spread
`{ ...parsed, objects: ... }`. -/
structure JDoc where
  objects : Option (List AnnObj)
  rest : List (String × String)
deriving Repr, DecidableEq

/-- A value handed to `stripImagesFromJSON`: a falsy value (`!json`), a
string together with its `JSON.parse` outcome (`none` when parsing
throws), or an already-parsed object. -/
inductive Blob where
  | nullish
  | str (s : String) (parse : Option JDoc)
  | obj (d : JDoc)
deriving Repr, DecidableEq

/-- The predicate kept by the strip filter
`parsed.objects.filter((o) => o?.type !== 'image')`. -/
def keepObj (o : AnnObj) : Bool := o.type != "image"

/-- Filtering of the `objects` array: if there is no (truthy) `objects`
field the parsed value is returned unchanged, otherwise image-typed
entries are dropped and the other fields are spread through. -/
def stripDoc (d : JDoc) : JDoc :=
  match d.objects with
  | none => d
  | some os => { d with objects := some (os.filter keepObj) }

/-- Outcome of a JS function call: a normal return or a thrown error.
The `try`/`catch` in `stripImagesFromJSON` makes every path a normal
return. -/
inductive StripResult where
  | ret (b : Blob)
  | thrownErr (name : String)
deriving Repr, DecidableEq

/-- `stripImagesFromJSON` from the annotation page: falsy input is
returned as-is; a string is `JSON.parse`d (when parsing throws, the
`catch` returns the input unchanged); the parsed or given object has
image-typed entries filtered out of its `objects` array. -/
def stripImagesFromJSON (json : Blob) : StripResult :=
  match json with
  | .nullish => .ret .nullish
  | .str s none => .ret (.str s none)
  | .str _ (some d) => .ret (.obj (stripDoc d))
  | .obj d => .ret (.obj (stripDoc d))

/-- Whether a call outcome is a thrown error. -/
def isThrownOutcome : StripResult → Bool
  | .ret _ => false
  | .thrownErr _ => true

/-- The `objects` array of a strip result, `parsed?.objects || []`. -/
def blobObjects : Blob → List AnnObj
  | .obj d => d.objects.getD []
  | _ => []

/-- `addAnnotations(canvas, json)` from the annotation page: a falsy json
is ignored; otherwise the stripped document's objects are enlivened and
added to the canvas in order (no objects: canvas unchanged).  The canvas
is modelled by its ordered object list. -/
def addAnnotations (canvasObjs : List AnnObj) (json : Option Blob) : List AnnObj :=
  match json with
  | none => canvasObjs
  | some j =>
    let parsed := match stripImagesFromJSON j with
      | .ret b => b
      | .thrownErr _ => j
    let objs := blobObjects parsed
    if objs.isEmpty then canvasObjs else canvasObjs ++ objs

/-! ## Submission aggregate (`server/models/Submission.js`) -/

/-- The `status` enum of the submission schema. -/
inductive SubmissionStatus where
  | uploaded
  | annotated
  | reported
deriving Repr, DecidableEq

/-- Position of a status along the `uploaded → annotated → reported`
lifecycle, used to talk about forward/backward movement. -/
def statusRank : SubmissionStatus → Nat
  | .uploaded => 0
  | .annotated => 1
  | .reported => 2

/-- The submission document.  `annotatedImagePaths` entries may be `null`
(the annotate route pads with `null`), hence `Option String`.  User
references are modelled by numeric ids, dates by `Nat` timestamps. -/
structure Submission where
  patientName : String
  mobileNumber : String
  email : String
  note : String
  userId : Nat
  originalImagePaths : List String
  annotatedImagePaths : List (Option String)
  annotatedImagePath : Option String
  annotationData : List Blob
  reportPath : Option String
  reportUrl : Option String
  status : SubmissionStatus
  treatmentRecommendations : Option String
  annotatedBy : Option Nat
  uploadedAt : Nat
  annotatedAt : Option Nat
  reportGeneratedAt : Option Nat
deriving Repr, DecidableEq

/-! ## Annotate route (`POST /:id/annotate`) -/

/-- Body of an annotate request.  `annotationData` is `some l` when
`Array.isArray` holds (with the array entries) and `none` otherwise;
`annotatedImageDataUrl = none` models an absent/falsy data URL;
`annotatedImageIndex = some i` models a value whose `Number(...)` is the
finite integer `i`, `none` a non-finite one (e.g. absent, hence `NaN`). -/
structure AnnotateReq where
  annotationData : Option (List Blob)
  treatmentRecommendations : Option String
  annotatedImageDataUrl : Option String
  annotatedImageIndex : Option Int
deriving Repr, DecidableEq

/-- The route's `while (updatedAnnotatedImagePaths.length <= idx) push(null)`:
extend the list with `null` up to length `n`. -/
def padToLen (xs : List (Option String)) (n : Nat) : List (Option String) :=
  xs ++ List.replicate (n - xs.length) none

/-- The per-index raster path write of the annotate route: for a
non-negative index, pad with `null` and set that slot; a negative index
assigns a non-index property of the JS array, leaving its elements
unchanged. -/
def upsertAnnotatedPath (existing : List (Option String)) (idx : Int)
    (filepath : String) : List (Option String) :=
  if 0 ≤ idx then (padToLen existing (idx.toNat + 1)).set idx.toNat (some filepath)
  else existing

/-- The annotate route handler, after the submission has been found:
computes the updated raster path list (upsert at the given finite index,
append when no index was supplied, unchanged without a data URL), then
replaces `annotationData` wholesale (empty when not an array), stores the
paths, mirrors the first path into the legacy `annotatedImagePath`, sets
the recommendations, and stamps `status`/`annotatedAt`/`annotatedBy`.
`newPath` is the freshly generated raster file path, `now` the clock. -/
def annotateSave (s : Submission) (r : AnnotateReq) (newPath : String)
    (now : Nat) (adminId : Nat) : Submission :=
  let updated :=
    match r.annotatedImageDataUrl, r.annotatedImageIndex with
    | some _, some idx => upsertAnnotatedPath s.annotatedImagePaths idx newPath
    | some _, none => s.annotatedImagePaths ++ [some newPath]
    | none, _ => s.annotatedImagePaths
  { s with
    annotationData := r.annotationData.getD []
    annotatedImagePaths := updated
    annotatedImagePath :=
      match updated with
      | [] => s.annotatedImagePath
      | x :: _ => x
    treatmentRecommendations := r.treatmentRecommendations
    status := .annotated
    annotatedAt := some now
    annotatedBy := some adminId }

/-! ## Upload route (`POST /upload`) -/

/-- One uploaded file as multer sees it: stored path, lowercased
extension of the original name (with its dot), MIME type, and size in
bytes. -/
structure UploadFile where
  path : String
  extnameLower : String
  mimetype : String
  size : Nat
  /-- Whether the file's bytes actually decode as a JPEG/PNG image: a
  property of the uploaded content that the server never inspects — the
  multer filter reads only the name, the MIME type and the size. -/
  decodable : Bool
deriving Repr, DecidableEq

/-- The multer `fileFilter`: the `/jpeg|jpg|png/` regex must match both
the lowercased extension and the MIME type. -/
def fileTypeOk (f : UploadFile) : Bool :=
  jsTestAllowed f.extnameLower && jsTestAllowed f.mimetype

/-- A file passing both the filter and the 10MB `fileSize` limit. -/
def fileAccepted (f : UploadFile) : Bool :=
  fileTypeOk f && decide (f.size ≤ 10485760)

/-- `upload.array("images", 3)` with the configured limits succeeds only
when at most 3 files arrive and every file passes filter and size limit;
otherwise the request fails before the route body runs. -/
def multerOk (files : List UploadFile) : Bool :=
  decide (files.length ≤ 3) && files.all fileAccepted

/-- The patient fields of the upload request body (absent fields are
`none`). -/
structure PatientInfo where
  patientName : Option String
  mobileNumber : Option String
  email : Option String
  note : Option String
deriving Repr, DecidableEq

/-- All patient-info checks of the upload route: the three required
fields are truthy, the email matches its regex, and the stripped mobile
number matches its regex. -/
def validInfo (info : PatientInfo) : Bool :=
  !jsFalsyStr info.patientName && !jsFalsyStr info.mobileNumber &&
    !jsFalsyStr info.email && emailOk (info.email.getD "") &&
    mobileOk (info.mobileNumber.getD "")

/-- The submission created by the upload route: patient fields, file
paths, upload timestamp, and the schema defaults (`status: 'uploaded'`,
all annotation/report fields absent). -/
def mkSubmission (info : PatientInfo) (files : List UploadFile)
    (uid : Nat) (now : Nat) : Submission :=
  { patientName := info.patientName.getD ""
    mobileNumber := info.mobileNumber.getD ""
    email := info.email.getD ""
    note := info.note.getD ""
    userId := uid
    originalImagePaths := files.map (·.path)
    annotatedImagePaths := []
    annotatedImagePath := none
    annotationData := []
    reportPath := none
    reportUrl := none
    status := .uploaded
    treatmentRecommendations := none
    annotatedBy := none
    uploadedAt := now
    annotatedAt := none
    reportGeneratedAt := none }

/-- Outcome of an upload attempt: a rejection (multer error or 400
response) with its message, or the created submission. -/
inductive UploadOutcome where
  | rejected (msg : String)
  | created (s : Submission)
deriving Repr, DecidableEq

/-- Whether an upload outcome created a submission. -/
def isCreated : UploadOutcome → Bool
  | .created _ => true
  | .rejected _ => false

/-- The upload endpoint: multer runs first (file filter, size limit, max
count), then the route body checks the required patient fields, the email
and mobile regexes, and finally that exactly 3 images are present, before
creating the submission. -/
def uploadIntake (info : PatientInfo) (files : List UploadFile)
    (uid : Nat) (now : Nat) : UploadOutcome :=
  if !multerOk files then
    .rejected "Only JPEG, JPG, and PNG images are allowed"
  else if jsFalsyStr info.patientName || jsFalsyStr info.mobileNumber ||
      jsFalsyStr info.email then
    .rejected "Patient name, mobile number, and email are required"
  else if !emailOk (info.email.getD "") then
    .rejected "Please provide a valid email address"
  else if !mobileOk (info.mobileNumber.getD "") then
    .rejected "Please provide a valid mobile number"
  else if files.length ≠ 3 then
    .rejected "Exactly 3 images are required in order: 1) Upper teeth, 2) Front teeth, 3) Lower teeth"
  else
    .created (mkSubmission info files uid now)

/-! ## Generate-report route (`POST /:id/generate-report`) -/

/-- The JS `filter(Boolean)` over the stored raster path list: drops
`null` entries and empty strings. -/
def filterBoolean (xs : List (Option String)) : List String :=
  xs.filterMap fun o =>
    match o with
    | some p => if p.isEmpty then none else some p
    | none => none

/-- The six legend entries of the screening card, in source order. -/
def reportLegendItems : List (String × String) :=
  [("#4B275A", "Inflamed / Red gums"),
   ("#F6C33B", "Misaligned"),
   ("#71B17C", "Receded gums"),
   ("#E65050", "Stains"),
   ("#2AB6C9", "Attrition"),
   ("#E23C83", "Crowns")]

/-- The fixed treatment-recommendation rows (swatch color, condition
label, canned guidance text), in source order. -/
def reportTreatmentRows : List (String × String × String) :=
  [("#4B275A", "Inflamed or Red\ngums", "Scaling."),
   ("#F6C33B", "Misaligned", "Braces or Clear Aligner"),
   ("#71B17C", "Receded gums", "Gum Surgery."),
   ("#E65050", "Stains", "Teeth cleaning and polishing."),
   ("#2AB6C9", "Attrition", "Filling/ Night Guard."),
   ("#E23C83", "Crowns",
    "If the crown is loose or broken, better get it checked. Teeth coloured caps are the best ones.")]

/-- The rendered PDF content relevant to the pipeline: title lines,
patient line, the three image slots (`none` renders the "Image not
available" placeholder), their labels, the legend, and the fixed
recommendation rows. -/
structure ReportDoc where
  titleLines : List String
  nameLine : String
  phoneLine : String
  slotSources : List (Option String)
  slotLabels : List String
  legendItems : List (String × String)
  treatmentRows : List (String × String × String)
deriving Repr, DecidableEq

/-- Rendering of the report body (runs only after both precondition
checks): slot `i` shows `annotatedPaths[i]` when that file exists on
disk (`fsE`), else the placeholder. -/
def buildReportDoc (s : Submission) (annotatedPaths : List String)
    (fsE : String → Bool) : ReportDoc :=
  { titleLines := ["Oral Health Screening", "Report"]
    nameLine := if s.patientName.isEmpty then "-" else s.patientName
    phoneLine := if s.mobileNumber.isEmpty then "-" else s.mobileNumber
    slotSources :=
      [0, 1, 2].map fun i =>
        match annotatedPaths.get? i with
        | some p => if fsE p then some p else none
        | none => none
    slotLabels := ["Upper Teeth", "Front Teeth", "Lower Teeth"]
    legendItems := reportLegendItems
    treatmentRows := reportTreatmentRows }

/-- Observable outcome of the generate-report route: the submission state
after the call, the list of report files written, and the error response
(if any). -/
structure GenOutcome where
  submission : Submission
  writes : List (String × ReportDoc)
  error : Option String
deriving Repr, DecidableEq

/-- The generate-report handler, after the submission has been found:
rejects unless `status === 'annotated'`; then takes the truthy stored
raster paths (at most 3) and rejects when fewer than 3 remain; only then
creates the PDF file, writes it, and flips the submission to
`reported` with its report references and timestamp.  `fname` is the
randomized report file name, `fsE` the file-existence check. -/
def generateReport (s : Submission) (fname : String) (now : Nat)
    (fsE : String → Bool) : GenOutcome :=
  if s.status ≠ .annotated then
    { submission := s, writes := [],
      error := some "Submission must be annotated before generating report" }
  else
    let annotatedPaths := (filterBoolean s.annotatedImagePaths).take 3
    if annotatedPaths.length < 3 then
      { submission := s, writes := [],
        error := some "Annotated images are required to generate the report (all three views)." }
    else
      { submission :=
          { s with
            reportPath := some fname
            reportUrl := some ("/uploads/reports/" ++ fname)
            status := .reported
            reportGeneratedAt := some now }
        writes := [(fname, buildReportDoc s annotatedPaths fsE)]
        error := none }

/-! ## Editor engine (annotation page tool handling) -/

/-- The canvas interaction state mutated by the tool `useEffect`:
drawing mode, free-drawing brush color and width, and cursor. -/
structure CanvasToolState where
  isDrawingMode : Bool
  brushColor : String
  brushWidth : Nat
  cursor : String
deriving Repr, DecidableEq

/-- The tool `useEffect` body: drawing mode is reset, then `freehand`
re-enables it with the active color and brush size, `eraser` re-enables
it with a forced white color and widened width
`Math.max(10, brushSize + 6)`, and any other tool only switches the
cursor (the brush keeps its previous settings). -/
def applyTool (prev : CanvasToolState) (tool : String) (activeColor : String)
    (brushSize : Nat) : CanvasToolState :=
  let st := { prev with isDrawingMode := false, cursor := "default" }
  if tool == "freehand" then
    { st with
      isDrawingMode := true
      brushColor := activeColor
      brushWidth := brushSize }
  else if tool == "eraser" then
    { st with
      isDrawingMode := true
      brushColor := "#FFFFFF"
      brushWidth := max 10 (brushSize + 6) }
  else
    { st with cursor := "crosshair" }

/-- Modelled from the spec: stroke capture (`captureStroke`) — fabric's
free-drawing brush, configured by the tool branch above, appends one new
`path` object with the brush's color and width to the canvas object list;
nothing is removed.  The fabric library itself is not part of this
repository. -/
def drawStroke (canvasObjs : List AnnObj) (color : String) (width : Nat) :
    List AnnObj :=
  canvasObjs ++ [{ type := "path", stroke := color, strokeWidth := width, rest := [] }]

/-- The Undo button handler: with the canvas object list `objs`, when
`objs.length > 1` remove `objs[objs.length - 1]`, otherwise do nothing
(the guard keeps the base image, which sits at index 0, safe). -/
def undoClick (objs : List AnnObj) : List AnnObj :=
  if objs.length > 1 then objs.dropLast else objs

/-! ## Rasterizer (editor load and `saveAll` composite) -/

/-- The fit scale applied to the base image, from
`Math.min((canvas.width - 40) / img.width, (canvas.height - 40) / img.height, 1)`
(both in the editor-load effect and in the `saveAll` composite loop). -/
def fitScale (canvasW canvasH imgW imgH : ℚ) : ℚ :=
  min ((canvasW - 40) / imgW) (min ((canvasH - 40) / imgH) 1)

/-- The object list of the composite canvas built per image in `saveAll`:
the cleared canvas receives the base image (sent to back, hence first),
then `addAnnotations` appends the stored document's non-image objects in
sequence order. -/
def compositeObjects (baseImg : AnnObj) (ann : Option Blob) : List AnnObj :=
  addAnnotations [baseImg] ann

/-- Modelled from the spec: canvas painter semantics — objects are drawn
in list order, so at any pixel the last covering object in the list is
the one visible.  `cov o` says object `o` covers the pixel under
consideration. -/
def paintAt (layers : List AnnObj) (cov : AnnObj → Bool) : Option AnnObj :=
  layers.foldl (fun acc l => if cov l then some l else acc) none

/-! ## Concrete sample data -/

/-- A file-existence check under which every path exists. -/
def fsAll : String → Bool := fun _ => true

/-- A serialized base-image object (fabric `type: 'image'`). -/
def baseImgObj : AnnObj := { type := "image", stroke := "", strokeWidth := 0, rest := [] }

/-- A serialized red rectangle annotation object. -/
def redRect : AnnObj := { type := "rect", stroke := "#DC2626", strokeWidth := 3, rest := [] }

/-- A serialized white eraser stroke object. -/
def whiteStroke : AnnObj := { type := "path", stroke := "#FFFFFF", strokeWidth := 10, rest := [] }

/-- An annotated submission with only two stored raster paths. -/
def subTwo : Submission :=
  { patientName := "Asha Rao"
    mobileNumber := "9876543210"
    email := "asha@example.com"
    note := ""
    userId := 7
    originalImagePaths := ["u.jpg", "f.jpg", "l.jpg"]
    annotatedImagePaths := [some "a0.png", some "a1.png"]
    annotatedImagePath := some "a0.png"
    annotationData := []
    reportPath := none
    reportUrl := none
    status := .annotated
    treatmentRecommendations := some "rinse twice daily"
    annotatedBy := some 1
    uploadedAt := 0
    annotatedAt := some 1
    reportGeneratedAt := none }

/-- An annotated submission with all three raster paths stored. -/
def subThree : Submission :=
  { subTwo with annotatedImagePaths := [some "a0.png", some "a1.png", some "a2.png"] }

/-- A submission that has already been reported. -/
def subReported : Submission :=
  { subThree with
    status := .reported
    reportPath := some "r0.pdf"
    reportUrl := some "/uploads/reports/r0.pdf"
    reportGeneratedAt := some 2 }

/-- An annotated submission with a single stored raster path. -/
def subOne : Submission := { subTwo with annotatedImagePaths := [some "a0.png"] }

/-- An annotate request carrying a data URL for slot 0. -/
def rqIdx0 : AnnotateReq :=
  { annotationData := some []
    treatmentRecommendations := some "rinse twice daily"
    annotatedImageDataUrl := some "data:image/png;base64,AAA"
    annotatedImageIndex := some 0 }

/-- An annotate request whose index is the finite number −1. -/
def rqNeg : AnnotateReq := { rqIdx0 with annotatedImageIndex := some (-1) }

/-- An annotate request targeting slot 3. -/
def rqIdx3 : AnnotateReq := { rqIdx0 with annotatedImageIndex := some 3 }

/-- A valid patient-info body. -/
def info0 : PatientInfo :=
  { patientName := some "Asha Rao"
    mobileNumber := some "9876543210"
    email := some "asha@example.com"
    note := none }

/-- A valid JPEG upload file. -/
def file0 : UploadFile :=
  { path := "u.jpg", extnameLower := ".jpg", mimetype := "image/jpeg",
    size := 1024, decodable := true }

/-- Three valid upload files. -/
def files0 : List UploadFile :=
  [file0, { file0 with path := "f.jpg" }, { file0 with path := "l.jpg" }]

/-- A file that names and types itself PNG but whose bytes do not decode
as any image. -/
def badPng : UploadFile :=
  { path := "x.png", extnameLower := ".png", mimetype := "image/png",
    size := 512, decodable := false }

/-- Three copies of the undecodable PNG-named file. -/
def filesBad : List UploadFile :=
  [badPng, { badPng with path := "y.png" }, { badPng with path := "z.png" }]

/-! ## Helper lemmas -/

/-- Objects surviving the image filter all satisfy the filter. -/
lemma filter_keepObj_all (os : List AnnObj) :
    (os.filter keepObj).all keepObj = true :=
  List.all_eq_true.mpr fun _ ha => (List.mem_filter.mp ha).2

/-- The image filter is idempotent. -/
lemma filter_keepObj_idem (os : List AnnObj) :
    (os.filter keepObj).filter keepObj = os.filter keepObj := by
  induction os with
  | nil => rfl
  | cons a as ih =>
    by_cases h : keepObj a
    · simp [List.filter, h, ih]
    · simp [List.filter, h, ih]

/-- Length of the null-padded path list. -/
lemma padToLen_length (xs : List (Option String)) (n : Nat) :
    (padToLen xs n).length = max xs.length n := by
  simp [padToLen]
  omega

/-- Padding does not change existing entries. -/
lemma padToLen_getElem?_lt (xs : List (Option String)) (n j : Nat)
    (h : j < xs.length) : (padToLen xs n)[j]? = xs[j]? := by
  simp [padToLen, List.getElem?_append_left h]

/-- Padded entries are `null`. -/
lemma padToLen_getElem?_pad (xs : List (Option String)) (n j : Nat)
    (h1 : xs.length ≤ j) (h2 : j < n) : (padToLen xs n)[j]? = some none := by
  simp [padToLen, List.getElem?_append_right h1, List.getElem?_replicate]
  omega

/-! ## Claim theorems -/

/-- C1: `generateReport` fails exactly when the submission's status is not
`annotated` or fewer than 3 truthy annotated raster paths are stored, and
a failing call writes no files and leaves the submission unchanged (the
precondition checks run before any rendering or output). -/
theorem c1_generate_report_precondition (s : Submission) (fname : String)
    (now : Nat) (fsE : String → Bool) :
    ((generateReport s fname now fsE).error.isSome ↔
      (s.status ≠ .annotated ∨
        (filterBoolean s.annotatedImagePaths).length < 3))
    ∧ ((generateReport s fname now fsE).error.isSome →
        (generateReport s fname now fsE).writes = []
        ∧ (generateReport s fname now fsE).submission = s) := by
  unfold generateReport
  by_cases h1 : s.status = SubmissionStatus.annotated
  · by_cases h2 : (filterBoolean s.annotatedImagePaths).length < 3
    · simp [h1, h2]
    · simp [h1, h2]
  · simp [h1]

/-- C1 witness: on a submission with only two annotated rasters the call
errors, writes nothing, and leaves the submission unchanged. -/
theorem c1_generate_report_precondition_witness :
    (generateReport subTwo "r.pdf" 0 fsAll).writes = []
    ∧ (generateReport subTwo "r.pdf" 0 fsAll).submission = subTwo :=
  (c1_generate_report_precondition subTwo "r.pdf" 0 fsAll).2 (by decide)

/-- C2: every annotation save replaces the submission's `annotationData`
with exactly the supplied list (empty when the supplied value is not an
array), sets status to `annotated`, and sets `annotatedAt`. -/
theorem c2_annotate_replaces_whole_array (s : Submission) (r : AnnotateReq)
    (p : String) (now adminId : Nat) :
    (annotateSave s r p now adminId).annotationData = r.annotationData.getD []
    ∧ (annotateSave s r p now adminId).status = .annotated
    ∧ (annotateSave s r p now adminId).annotatedAt = some now :=
  ⟨rfl, rfl, rfl⟩

/-- C3 counterexample: an annotation save on a `reported` submission sets
its status back to `annotated`, a backward move of the state machine. -/
theorem c3_status_backward_cex :
    subReported.status = SubmissionStatus.reported
    ∧ (annotateSave subReported rqIdx0 "p.png" 5 1).status = SubmissionStatus.annotated
    ∧ statusRank (annotateSave subReported rqIdx0 "p.png" 5 1).status <
        statusRank subReported.status :=
  ⟨rfl, rfl, by decide⟩

/-- C3 (amended): status never skips a state — upload creates `uploaded`,
and report generation succeeds only from `annotated`, moving to
`reported` (an erroring call leaves the submission unchanged) — but an
annotation save always sets status to `annotated`, including on a
`reported` submission, which is a backward move. -/
theorem c3_status_machine_amended :
    (∀ info files uid now s0,
      uploadIntake info files uid now = .created s0 → s0.status = .uploaded)
    ∧ (∀ s r p now adminId, (annotateSave s r p now adminId).status = .annotated)
    ∧ (∀ s fname now fsE, (generateReport s fname now fsE).error = none →
        s.status = .annotated
        ∧ (generateReport s fname now fsE).submission.status = .reported)
    ∧ (∀ s fname now fsE, (generateReport s fname now fsE).error ≠ none →
        (generateReport s fname now fsE).submission = s) := by
  refine ⟨?_, ?_, ?_, ?_⟩
  · intro info files uid now s0 h
    unfold uploadIntake at h
    repeat' split at h
    all_goals first
      | exact UploadOutcome.noConfusion h
      | (injection h with h2; subst h2; rfl)
  · intro s r p now adminId
    rfl
  · intro s fname now fsE h
    unfold generateReport at h ⊢
    by_cases h1 : s.status = SubmissionStatus.annotated
    · by_cases h2 : (filterBoolean s.annotatedImagePaths).length < 3
      · simp [h1, h2] at h
      · simp [h1, h2]
    · simp [h1] at h
  · intro s fname now fsE h
    unfold generateReport at h ⊢
    by_cases h1 : s.status = SubmissionStatus.annotated
    · by_cases h2 : (filterBoolean s.annotatedImagePaths).length < 3
      · simp [h1, h2]
      · simp [h1, h2] at h
    · simp [h1]

/-- C3 witness: a save on a reported submission ends `annotated`; report
generation on a fully annotated submission ends `reported`. -/
theorem c3_status_machine_amended_witness :
    (annotateSave subReported rqIdx0 "p.png" 5 1).status = SubmissionStatus.annotated
    ∧ (generateReport subThree "r.pdf" 9 fsAll).submission.status = SubmissionStatus.reported :=
  ⟨c3_status_machine_amended.2.1 subReported rqIdx0 "p.png" 5 1,
   (c3_status_machine_amended.2.2.1 subThree "r.pdf" 9 fsAll (by decide)).2⟩

/-- C4 counterexample: three files whose bytes are not decodable images
but that carry a `.png` name and an `image/png` MIME type are accepted
and the submission is created with status `uploaded` — the upload never
fails on undecodable bytes, because the server never decodes them. -/
theorem c4_undecodable_accepted_cex :
    filesBad.all (fun f => f.decodable) = false
    ∧ uploadIntake info0 filesBad 3 0 = .created (mkSubmission info0 filesBad 3 0)
    ∧ (mkSubmission info0 filesBad 3 0).status = .uploaded :=
  ⟨rfl, by decide, rfl⟩

/-- C4 (amended): the upload endpoint never creates a submission when
the image count differs from 3 or some image fails the server's
JPEG/JPG/PNG checks — a substring test on the lowercased extension and
the client-supplied MIME type — or the 10MB limit (the bytes are never
decoded); with valid patient info and exactly 3 accepted images it
creates a submission whose status is `uploaded`. -/
theorem c4_upload_validation (info : PatientInfo) (files : List UploadFile)
    (uid now : Nat) :
    ((files.length ≠ 3 ∨ files.all fileAccepted = false) →
      isCreated (uploadIntake info files uid now) = false)
    ∧ (validInfo info = true → files.length = 3 →
        files.all fileAccepted = true →
        uploadIntake info files uid now = .created (mkSubmission info files uid now)
        ∧ (mkSubmission info files uid now).status = .uploaded) := by
  constructor
  · intro h
    unfold uploadIntake
    split_ifs with h1 h2 h3 h4 h5 <;>
      simp_all [isCreated, multerOk]
  · intro hv h3 hall
    have hm : multerOk files = true := by
      simp [multerOk, h3, hall]
    unfold validInfo at hv
    simp only [Bool.and_eq_true, Bool.not_eq_true'] at hv
    obtain ⟨⟨⟨⟨hp, hmn⟩, he⟩, heo⟩, hmo⟩ := hv
    unfold uploadIntake
    simp [hm, hp, hmn, he, heo, hmo, h3]
    exact rfl

/-- C4 witness: a concrete valid request creates an `uploaded`
submission. -/
theorem c4_upload_validation_witness :
    uploadIntake info0 files0 3 0 = .created (mkSubmission info0 files0 3 0)
    ∧ (mkSubmission info0 files0 3 0).status = .uploaded :=
  (c4_upload_validation info0 files0 3 0).2 (by decide) (by decide) (by decide)

/-- C5: serialization strips every image-typed entry (none survives),
stripping is idempotent, every other top-level field is preserved, and
deserializing a serialized document yields exactly the document's
non-image objects, in order. -/
theorem c5_serialize_round_trip (d : JDoc) :
    ((stripDoc d).objects.getD []).all keepObj = true
    ∧ stripImagesFromJSON (Blob.obj d) = .ret (.obj (stripDoc d))
    ∧ stripDoc (stripDoc d) = stripDoc d
    ∧ (stripDoc d).rest = d.rest
    ∧ addAnnotations [] (some (.obj (stripDoc d))) = (d.objects.getD []).filter keepObj := by
  refine ⟨?_, rfl, ?_, ?_, ?_⟩
  · cases h : d.objects with
    | none => simp [stripDoc, h]
    | some os => simp [stripDoc, h, filter_keepObj_all]
  · cases h : d.objects with
    | none => simp [stripDoc, h]
    | some os => simp [stripDoc, h, filter_keepObj_idem]
  · cases h : d.objects with
    | none => simp [stripDoc, h]
    | some os => simp [stripDoc, h]
  · cases h : d.objects with
    | none => simp [addAnnotations, stripImagesFromJSON, blobObjects, stripDoc, h]
    | some os =>
      by_cases he : os.filter keepObj = []
      · simp [addAnnotations, stripImagesFromJSON, blobObjects, stripDoc, h, he,
          filter_keepObj_idem]
      · simp [addAnnotations, stripImagesFromJSON, blobObjects, stripDoc, h, he,
          filter_keepObj_idem]

/-- C6 counterexample: on a blob that cannot be parsed, the function does
not fail with any error — it returns normally with the input unchanged
(no `MalformedAnnotationError` exists anywhere in the code). -/
theorem c6_no_error_on_parse_failure_cex :
    stripImagesFromJSON (Blob.str "not json" none) = .ret (Blob.str "not json" none)
    ∧ isThrownOutcome (stripImagesFromJSON (Blob.str "not json" none)) = false :=
  ⟨rfl, rfl⟩

/-- C6 (amended): on any parse failure, `stripImagesFromJSON` raises no
error and returns the input unchanged, so deserialization via
`addAnnotations` adds no objects to the canvas; the function never throws
on any input. -/
theorem c6_parse_failure_returns_input (s : String) (canvasObjs : List AnnObj)
    (b : Blob) :
    stripImagesFromJSON (Blob.str s none) = .ret (Blob.str s none)
    ∧ addAnnotations canvasObjs (some (Blob.str s none)) = canvasObjs
    ∧ isThrownOutcome (stripImagesFromJSON b) = false := by
  refine ⟨rfl, rfl, ?_⟩
  cases b with
  | nullish => rfl
  | str s2 p => cases p <;> rfl
  | obj d => rfl

/-- C7 counterexample: with a 100×100 canvas and a 90×90 image the code
applies scale 2/3, while the claimed formula
`min(canvasW/imgW, canvasH/imgH, 1)` gives 1 — the code subtracts a 40px
margin allowance from the canvas dimensions first. -/
theorem c7_fit_scale_formula_cex :
    fitScale 100 100 90 90 = 2 / 3
    ∧ min ((100 : ℚ) / 90) (min ((100 : ℚ) / 90) 1) = 1
    ∧ fitScale 100 100 90 90 ≠ min ((100 : ℚ) / 90) (min ((100 : ℚ) / 90) 1) := by
  refine ⟨?_, ?_, ?_⟩ <;> norm_num [fitScale, min_def]

/-- C7 (amended): the rasterizer fits the base image with
`scale = min((canvasW − 40)/imgW, (canvasH − 40)/imgH, 1)`, which never
exceeds 1 (no upscaling); the composite canvas holds the base image first
and then every non-image annotation object in sequence order, and under
painter semantics a later covering object wins at a pixel. -/
theorem c7_rasterizer_fit_and_order (cw ch iw ih : ℚ) (img : AnnObj) (d : JDoc)
    (cov : AnnObj → Bool) (pre : List AnnObj) (x : AnnObj) :
    fitScale cw ch iw ih = min ((cw - 40) / iw) (min ((ch - 40) / ih) 1)
    ∧ fitScale cw ch iw ih ≤ 1
    ∧ compositeObjects img (some (Blob.obj d)) =
        img :: (d.objects.getD []).filter keepObj
    ∧ (cov x = true → paintAt (pre ++ [x]) cov = some x) := by
  refine ⟨rfl, ?_, ?_, ?_⟩
  · exact le_trans (min_le_right _ _) (min_le_right _ _)
  · cases h : d.objects with
    | none =>
      simp [compositeObjects, addAnnotations, stripImagesFromJSON, blobObjects,
        stripDoc, h]
    | some os =>
      by_cases he : os.filter keepObj = []
      · simp [compositeObjects, addAnnotations, stripImagesFromJSON, blobObjects,
          stripDoc, h, he]
      · simp [compositeObjects, addAnnotations, stripImagesFromJSON, blobObjects,
          stripDoc, h, he]
  · intro hcov
    simp [paintAt, List.foldl_append, hcov]

/-- C7 witness: painting a white stroke after the base image and a red
rectangle leaves the stroke visible at a pixel it covers. -/
theorem c7_rasterizer_fit_and_order_witness :
    paintAt ([baseImgObj, redRect] ++ [whiteStroke]) (fun o => o.type == "path") =
      some whiteStroke :=
  (c7_rasterizer_fit_and_order 100 100 90 90 baseImgObj
    { objects := some [], rest := [] } (fun o => o.type == "path")
    [baseImgObj, redRect] whiteStroke).2.2.2 (by decide)

/-- C8: selecting the eraser forces the brush to the fixed white color
with a width strictly wider than the brush size; an eraser stroke appends
a new white path object to the canvas object list (removing nothing), so
the Undo handler afterwards removes exactly the eraser stroke and
restores the previous list, shape included. -/
theorem c8_eraser_paints_over (prev : CanvasToolState) (activeColor : String)
    (brushSize : Nat) (canvasObjs : List AnnObj) (h : canvasObjs ≠ []) :
    (applyTool prev "eraser" activeColor brushSize).brushColor = "#FFFFFF"
    ∧ (applyTool prev "eraser" activeColor brushSize).brushWidth =
        max 10 (brushSize + 6)
    ∧ brushSize < (applyTool prev "eraser" activeColor brushSize).brushWidth
    ∧ drawStroke canvasObjs "#FFFFFF" (max 10 (brushSize + 6)) =
        canvasObjs ++
          [{ type := "path", stroke := "#FFFFFF",
             strokeWidth := max 10 (brushSize + 6), rest := [] }]
    ∧ undoClick (drawStroke canvasObjs "#FFFFFF" (max 10 (brushSize + 6))) =
        canvasObjs := by
  refine ⟨rfl, rfl, ?_, rfl, ?_⟩
  · calc brushSize < brushSize + 6 := by omega
      _ ≤ max 10 (brushSize + 6) := le_max_right _ _
  · have hpos : 0 < canvasObjs.length := List.length_pos.mpr h
    have hlen : (drawStroke canvasObjs "#FFFFFF" (max 10 (brushSize + 6))).length > 1 := by
      simp [drawStroke]
      omega
    unfold undoClick
    rw [if_pos hlen]
    exact List.dropLast_concat

/-- C8 witness: with the base image and a red rectangle on the canvas,
an eraser stroke then Undo restores exactly the previous object list. -/
theorem c8_eraser_paints_over_witness :
    (applyTool ⟨true, "#DC2626", 3, "default"⟩ "eraser" "#DC2626" 3).brushColor = "#FFFFFF"
    ∧ undoClick (drawStroke [baseImgObj, redRect] "#FFFFFF" (max 10 (3 + 6))) =
        [baseImgObj, redRect] :=
  ⟨(c8_eraser_paints_over ⟨true, "#DC2626", 3, "default"⟩ "#DC2626" 3
      [baseImgObj, redRect] (by decide)).1,
   (c8_eraser_paints_over ⟨true, "#DC2626", 3, "default"⟩ "#DC2626" 3
      [baseImgObj, redRect] (by decide)).2.2.2.2⟩

/-- C9: the Undo handler only ever removes the most recent annotation
object: on a canvas holding just the base image (an empty document) it is
a no-op, it never removes the head (base image at index 0), and on an
empty canvas it is also a no-op (it never errors). -/
theorem c9_undo_never_removes_base (base : AnnObj) (anns : List AnnObj) :
    undoClick (base :: anns) = base :: anns.dropLast
    ∧ undoClick [base] = [base]
    ∧ (undoClick (base :: anns)).head? = some base
    ∧ undoClick ([] : List AnnObj) = [] := by
  have h1 : undoClick (base :: anns) = base :: anns.dropLast := by
    cases anns with
    | nil => simp [undoClick]
    | cons a as => simp [undoClick]
  refine ⟨h1, by simp [undoClick], ?_, by simp [undoClick]⟩
  rw [h1]
  rfl

/-- C10 counterexample: a save supplying a data URL with the finite index
−1 leaves the stored raster path array completely unchanged — the new
path is written at no index at all (the JS assignment targets a non-index
property). -/
theorem c10_negative_index_cex :
    (annotateSave subOne rqNeg "new.png" 7 1).annotatedImagePaths = [some "a0.png"]
    ∧ (some "new.png") ∉ (annotateSave subOne rqNeg "new.png" 7 1).annotatedImagePaths :=
  ⟨rfl, by decide⟩

/-- C10 (amended): for every save supplying a raster data URL and a
finite non-negative index, the new raster path is stored exactly at that
index (padding shorter arrays with `null`), every other previously stored
index is unchanged, and the same save still replaces `annotationData`
wholesale. -/
theorem c10_per_index_upsert (s : Submission) (r : AnnotateReq) (p u : String)
    (now adminId : Nat) (idx : Int)
    (hurl : r.annotatedImageDataUrl = some u)
    (hidx : r.annotatedImageIndex = some idx) (hpos : 0 ≤ idx) :
    ((annotateSave s r p now adminId).annotatedImagePaths)[idx.toNat]? =
      some (some p)
    ∧ (∀ j, j ≠ idx.toNat → j < s.annotatedImagePaths.length →
        ((annotateSave s r p now adminId).annotatedImagePaths)[j]? =
          s.annotatedImagePaths[j]?)
    ∧ (∀ j, j ≠ idx.toNat → s.annotatedImagePaths.length ≤ j →
        j < (annotateSave s r p now adminId).annotatedImagePaths.length →
        ((annotateSave s r p now adminId).annotatedImagePaths)[j]? = some none)
    ∧ (annotateSave s r p now adminId).annotationData = r.annotationData.getD [] := by
  have hupd : (annotateSave s r p now adminId).annotatedImagePaths =
      (padToLen s.annotatedImagePaths (idx.toNat + 1)).set idx.toNat (some p) := by
    simp [annotateSave, hurl, hidx, upsertAnnotatedPath, hpos]
  have hplen : idx.toNat < (padToLen s.annotatedImagePaths (idx.toNat + 1)).length := by
    rw [padToLen_length]
    omega
  refine ⟨?_, ?_, ?_, rfl⟩
  · rw [hupd]
    exact List.getElem?_set_self hplen
  · intro j hj hjlt
    rw [hupd, List.getElem?_set_ne (fun hne => hj hne.symm)]
    exact padToLen_getElem?_lt _ _ _ hjlt
  · intro j hj hjge hjlt
    rw [hupd] at hjlt
    rw [List.length_set, padToLen_length] at hjlt
    rw [hupd, List.getElem?_set_ne (fun hne => hj hne.symm)]
    exact padToLen_getElem?_pad _ _ _ hjge (by omega)

/-- C10 witness: saving a raster for slot 3 of a submission with two
stored paths pads slot 2 with `null`, stores the new path at slot 3, and
keeps slot 0 unchanged. -/
theorem c10_per_index_upsert_witness :
    ((annotateSave subTwo rqIdx3 "new.png" 7 1).annotatedImagePaths)[(3 : Int).toNat]? =
      some (some "new.png")
    ∧ ((annotateSave subTwo rqIdx3 "new.png" 7 1).annotatedImagePaths)[0]? =
        subTwo.annotatedImagePaths[0]?
    ∧ ((annotateSave subTwo rqIdx3 "new.png" 7 1).annotatedImagePaths)[2]? = some none :=
  have H := c10_per_index_upsert subTwo rqIdx3 "new.png" "data:image/png;base64,AAA"
    7 1 3 rfl rfl (by decide)
  ⟨H.1, H.2.1 0 (by decide) (by decide), H.2.2.1 2 (by decide) (by decide) (by decide)⟩

end OralVis
